import Mathlib

/-
Verification of the gr-pipe sink implementation (src/lib/sink_impl.cc).

The C++ code is shallowly embedded as pure Lean functions.  OS interaction
(pipe, fork, fcntl, fdopen, fwrite, waitpid, ...) is modelled by an explicit
world state (a table of file descriptors) together with oracle records that
fix the outcome of each system call; given a world and an oracle every
embedded function is deterministic and executable.  Side effects visible to
an observer (perror, stderr output, the system calls themselves) are
recorded in an event trace, so temporal claims become statements about the
order of events in that trace.  C++ exceptions (throw std::runtime_error)
are modelled with Except: an error value means the C++ function raises.
-/

namespace GrPipe

/-- Numeric value of the O_NONBLOCK status flag on Linux. -/
def O_NONBLOCK : Nat := 2048

/-- Numeric value of the FD_CLOEXEC descriptor flag on Linux. -/
def FD_CLOEXEC : Nat := 1

/-- Numeric value of errno EAGAIN on Linux. -/
def EAGAIN : Nat := 11

/-- Numeric value of errno EWOULDBLOCK on Linux (same as EAGAIN). -/
def EWOULDBLOCK : Nat := 11

/-- Numeric value of errno EINTR on Linux. -/
def EINTR : Nat := 4

/-- Numeric value of the EXIT_FAILURE constant. -/
def EXIT_FAILURE : Nat := 1

/-- File descriptor number of standard input. -/
def STDIN_FILENO : Int := 0

/-- Observable events: system calls made by the code, perror diagnostics and
std cerr output.  Temporal claims are read off the order of these events. -/
inductive Ev where
  | perror (msg : String)
  | fcntlGetFl (fd : Int)
  | fcntlSetFl (fd : Int) (val : Nat)
  | fcntlSetFd (fd : Int) (val : Nat)
  | closeFd (fd : Int)
  | dup2Ev (oldfd newfd : Int)
  | execlEv (cmd : String)
  | exitEv (code : Nat)
  | fcloseEv
  | waitpidEv (pid : Int)
  | cerr (msg : String)
  | fwriteEv (itemSize nitems : Nat)
  | fflushEv
  | fdopenEv (fd : Int)
  deriving DecidableEq, Repr

/-- The kernel-side state the code manipulates: for each descriptor number its
status flags (read and written by fcntl F_GETFL / F_SETFL), its descriptor
flags (written by fcntl F_SETFD) and whether it is open in this process.
The getflOk / setflOk oracles decide whether an fcntl call on a descriptor
succeeds (fcntl returns -1 on failure in the C code). -/
structure World where
  fdStatus : Int → Nat
  fdFdflags : Int → Nat
  fdOpen : Int → Bool
  getflOk : Int → Bool
  setflOk : Int → Bool

/-- Mark a descriptor closed in the world (close(fd), and the descriptor side
of fclose). -/
def closeFdW (w : World) (fd : Int) : World :=
  { w with fdOpen := fun g => if g = fd then false else w.fdOpen g }

/-- The data members of sink_impl that the claims mention: d_in_item_sz,
d_cmd_pid, d_cmd_stdin_pipe (read end, write end), the FILE handle
d_cmd_stdin (none while unset / NULL) and the d_unbuffered flag. -/
structure SinkState where
  d_in_item_sz : Nat
  d_cmd_pid : Int
  d_cmd_stdin_pipe : Int × Int
  d_cmd_stdin : Option Nat
  d_unbuffered : Bool
  deriving DecidableEq, Repr

/-- Embedding of sink_impl::unbuffered (sink_impl.cc lines 93-97). -/
def unbuffered (s : SinkState) : Bool :=
  s.d_unbuffered

/-- Embedding of sink_impl::set_unbuffered (sink_impl.cc lines 99-103). -/
def set_unbuffered (s : SinkState) (b : Bool) : SinkState :=
  { s with d_unbuffered := b }

/-- Embedding of sink_impl::set_fd_flags (sink_impl.cc lines 105-121):
fcntl(fd, F_GETFL) giving ret, then fcntl(fd, F_SETFL, ret | flags); either
fcntl failing prints a perror diagnostic and throws a runtime error. -/
def set_fd_flags (w : World) (fd : Int) (flags : Nat) :
    Except String World × List Ev :=
  if w.getflOk fd then
    let ret := w.fdStatus fd
    if w.setflOk fd then
      (.ok { w with
              fdStatus := fun g => if g = fd then ret ||| flags else w.fdStatus g },
       [.fcntlGetFl fd, .fcntlSetFl fd (ret ||| flags)])
    else
      (.error "fcntl() error", [.fcntlGetFl fd, .perror "fcntl()"])
  else
    (.error "fcntl() error", [.fcntlGetFl fd, .perror "fcntl()"])

/-- Embedding of sink_impl::reset_fd_flags (sink_impl.cc lines 123-139):
fcntl(fd, F_GETFL) giving ret, then fcntl(fd, F_SETFL, ret & ~flag); the
C expression ret & ~flag on nonnegative values is Nat.ldiff ret flag.
Either fcntl failing prints a perror diagnostic and throws a runtime
error. -/
def reset_fd_flags (w : World) (fd : Int) (flag : Nat) :
    Except String World × List Ev :=
  if w.getflOk fd then
    let ret := w.fdStatus fd
    if w.setflOk fd then
      (.ok { w with
              fdStatus := fun g => if g = fd then Nat.ldiff ret flag else w.fdStatus g },
       [.fcntlGetFl fd, .fcntlSetFl fd (Nat.ldiff ret flag)])
    else
      (.error "fcntl() error", [.fcntlGetFl fd, .perror "fcntl()"])
  else
    (.error "fcntl() error", [.fcntlGetFl fd, .perror "fcntl()"])

/-- Embedding of sink_impl::create_pipe (sink_impl.cc lines 141-151): the
oracle res is the outcome of pipe(): some (read end, write end) on success,
none on failure.  On failure the code prints perror and throws.  Fresh pipe
descriptors start with empty status flags. -/
def create_pipe (w : World) (res : Option (Int × Int)) :
    Except String (Int × Int) × World × List Ev :=
  match res with
  | none => (.error "pipe() error", w, [.perror "pipe()"])
  | some (rfd, wfd) =>
    (.ok (rfd, wfd),
     { w with
       fdOpen := fun g => if g = rfd ∨ g = wfd then true else w.fdOpen g,
       fdStatus := fun g => if g = rfd ∨ g = wfd then 0 else w.fdStatus g },
     [])

/-- Outcomes of the pipe / fork / execl / fdopen system calls during
sink_impl::create_command_process.  forkRes is what fork() returns in the
process being modelled: -1 failure, 0 this is the child, a positive pid
this is the parent. -/
structure SpawnOracle where
  pipeRes : Option (Int × Int)
  forkRes : Int
  execOk : Bool
  fdopenRes : Option Nat
  deriving DecidableEq, Repr

/-- How a run of create_command_process ends: threw models a C++ exception
propagating to the constructor caller; returned models the function (and
hence the constructor) completing normally with the given member state;
childExec models the child having replaced its image with sh -c cmd;
childExit models the child calling exit with the given code. -/
inductive CreateResult where
  | threw (msg : String)
  | returned (s : SinkState)
  | childExec (cmd : String)
  | childExit (code : Nat)
  deriving DecidableEq, Repr

/-- Embedding of sink_impl::create_command_process (sink_impl.cc lines
153-186), faithful to the source line by line: create_pipe into
d_cmd_stdin_pipe; fork; on fork failure perror and plain return (the
constructor still completes); in the child dup2 the read end onto stdin,
close both pipe descriptors, execl sh -c cmd and on execl failure perror
and exit(EXIT_FAILURE); in the parent close the read end, set_fd_flags
O_NONBLOCK on the write end (which may throw), fcntl F_SETFD FD_CLOEXEC,
and fdopen the write end, throwing if fdopen yields NULL. -/
def create_command_process (w : World) (o : SpawnOracle) (cmd : String)
    (s : SinkState) : CreateResult × World × List Ev :=
  match create_pipe w o.pipeRes with
  | (.error m, w1, t) => (.threw m, w1, t)
  | (.ok (rfd, wfd), w1, t0) =>
    let s2 : SinkState :=
      { s with d_cmd_stdin_pipe := (rfd, wfd), d_cmd_pid := o.forkRes }
    if o.forkRes = -1 then
      (.returned s2, w1, t0 ++ [.perror "fork()"])
    else if o.forkRes = 0 then
      let w2 : World :=
        { w1 with
          fdOpen := fun g => if g = STDIN_FILENO then true else w1.fdOpen g,
          fdStatus := fun g => if g = STDIN_FILENO then w1.fdStatus rfd else w1.fdStatus g }
      let w3 := closeFdW (closeFdW w2 rfd) wfd
      let t1 := t0 ++ [.dup2Ev rfd STDIN_FILENO, .closeFd rfd, .closeFd wfd, .execlEv cmd]
      if o.execOk then
        (.childExec cmd, w3, t1)
      else
        (.childExit EXIT_FAILURE, w3, t1 ++ [.perror "execl()", .exitEv EXIT_FAILURE])
    else
      let w2 := closeFdW w1 rfd
      let t1 := t0 ++ [.closeFd rfd]
      match set_fd_flags w2 wfd O_NONBLOCK with
      | (.error m, t2) => (.threw m, w2, t1 ++ t2)
      | (.ok w3, t2) =>
        let w4 : World :=
          { w3 with fdFdflags := fun g => if g = wfd then FD_CLOEXEC else w3.fdFdflags g }
        let t3 := t1 ++ t2 ++ [.fcntlSetFd wfd FD_CLOEXEC]
        match o.fdopenRes with
        | none => (.threw "fdopen() error", w4, t3 ++ [.perror "fdopen()"])
        | some h =>
          (.returned { s2 with d_cmd_stdin := some h }, w4, t3 ++ [.fdopenEv wfd])

/-- Outcome of the fwrite call inside write_process_input: the number of
items fwrite reports written, whether ferror(d_cmd_stdin) is set afterwards,
and the value of errno at that point. -/
structure WriteOracle where
  fwriteRet : Nat
  ferror : Bool
  errnoVal : Nat
  deriving DecidableEq, Repr

/-- Embedding of sink_impl::write_process_input (sink_impl.cc lines 188-206):
ret = fwrite(in, d_in_item_sz, nitems, d_cmd_stdin); if ret == 0 and
ferror(d_cmd_stdin) and errno is neither EAGAIN nor EWOULDBLOCK, throw a
runtime error; otherwise, if d_unbuffered, fflush(d_cmd_stdin); return ret. -/
def write_process_input (s : SinkState) (o : WriteOracle) (nitems : Nat) :
    Except String Nat × List Ev :=
  let ret := o.fwriteRet
  let t0 : List Ev := [.fwriteEv s.d_in_item_sz nitems]
  if ret = 0 ∧ o.ferror = true ∧ o.errnoVal ≠ EAGAIN ∧ o.errnoVal ≠ EWOULDBLOCK then
    (.error "fwrite() error", t0)
  else if s.d_unbuffered then
    (.ok ret, t0 ++ [.fflushEv])
  else
    (.ok ret, t0)

/-- Embedding of sink_impl::work (sink_impl.cc lines 208-219): it calls
write_process_input on the input buffer (an exception from there
propagates) and then returns noutput_items, ignoring the count that
write_process_input reported. -/
def work (s : SinkState) (o : WriteOracle) (noutput_items : Nat) :
    Except String Nat × List Ev :=
  match write_process_input s o noutput_items with
  | (.error m, t) => (.error m, t)
  | (.ok _, t) => (.ok noutput_items, t)

/-- One outcome of a waitpid attempt: ok pstat for a successful wait with
status pstat, or err e for a -1 return with errno e. -/
inductive WaitRes where
  | ok (pstat : Nat)
  | err (e : Nat)
  deriving DecidableEq, Repr

/-- Embedding of the destructor retry loop
do ret = waitpid(d_cmd_pid, and pstat, 0) while (ret == -1 and errno == EINTR)
(sink_impl.cc lines 78-80).  The oracle list gives the outcome of each
successive waitpid call; the loop retries on EINTR and stops at the first
other outcome.  none means the oracle list ran out before the loop stopped
(the run is not determined).  Each attempt is recorded as a waitpidEv event
on d_cmd_pid. -/
def waitpid_retry (pid : Int) : List WaitRes → Option (WaitRes × List Ev)
  | [] => none
  | .ok ps :: _ => some (.ok ps, [.waitpidEv pid])
  | .err e :: rest =>
    if e = EINTR then
      match waitpid_retry pid rest with
      | none => none
      | some (r, t) => some (r, .waitpidEv pid :: t)
    else
      some (.err e, [.waitpidEv pid])

/-- Embedding of the glibc macro WIFEXITED: the low seven status bits (the
terminating signal number) are zero. -/
def WIFEXITED (pstat : Nat) : Bool :=
  pstat % 128 == 0

/-- Embedding of the glibc macro WEXITSTATUS: bits 8-15 of the status. -/
def WEXITSTATUS (pstat : Nat) : Nat :=
  pstat / 256 % 256

/-- Embedding of the destructor sink_impl::~sink_impl (sink_impl.cc lines
68-91): reset_fd_flags O_NONBLOCK on the pipe write end (this helper throws
on fcntl failure, and that exception propagates out of the destructor body:
the error case here); fclose(d_cmd_stdin); the waitpid retry loop on
d_cmd_pid; if the wait failed, perror and return; otherwise report the exit
code or abnormal termination on std cerr.  none means the waitpid oracle
was exhausted before the loop stopped. -/
def sink_destructor (w : World) (s : SinkState) (ws : List WaitRes) :
    Option (Except String World × List Ev) :=
  let wfd := s.d_cmd_stdin_pipe.2
  match reset_fd_flags w wfd O_NONBLOCK with
  | (.error m, t) => some (.error m, t)
  | (.ok w1, t) =>
    let w2 := closeFdW w1 wfd
    let t1 := t ++ [Ev.fcloseEv]
    match waitpid_retry s.d_cmd_pid ws with
    | none => none
    | some (.err _, tw) =>
      some (.ok w2, t1 ++ tw ++ [.perror "waitpid()"])
    | some (.ok ps, tw) =>
      if WIFEXITED ps then
        some (.ok w2,
          t1 ++ tw ++ [.cerr ("Process exited with code " ++ toString (WEXITSTATUS ps))])
      else
        some (.ok w2, t1 ++ tw ++ [.cerr "Abnormal process termination"])

/-- A concrete world in which every fcntl call succeeds. -/
def exW : World :=
  { fdStatus := fun _ => 0, fdFdflags := fun _ => 0, fdOpen := fun _ => false,
    getflOk := fun _ => true, setflOk := fun _ => true }

/-- A concrete world in which every fcntl F_GETFL call fails. -/
def exBadW : World :=
  { exW with getflOk := fun _ => false }

/-- A concrete freshly constructed member state (d_cmd_stdin still unset). -/
def exSink : SinkState :=
  { d_in_item_sz := 1, d_cmd_pid := 0, d_cmd_stdin_pipe := (0, 0),
    d_cmd_stdin := none, d_unbuffered := false }

/-- A concrete fully initialised sink: child pid 42, pipe descriptors (3, 4),
write end wrapped in FILE handle 7. -/
def exParentSink : SinkState :=
  { d_in_item_sz := 1, d_cmd_pid := 42, d_cmd_stdin_pipe := (3, 4),
    d_cmd_stdin := some 7, d_unbuffered := false }

/-- A concrete spawn oracle describing a failing fork (fork returns -1)
after a successful pipe call. -/
def exForkFailOracle : SpawnOracle :=
  { pipeRes := some (3, 4), forkRes := -1, execOk := true, fdopenRes := some 7 }

/-- A concrete spawn oracle for the parent branch: pipe gives (3, 4), fork
returns pid 42, fdopen yields FILE handle 7. -/
def exParentOracle : SpawnOracle :=
  { pipeRes := some (3, 4), forkRes := 42, execOk := true, fdopenRes := some 7 }

/-- A concrete spawn oracle for the child branch with a failing execl. -/
def exChildOracle : SpawnOracle :=
  { pipeRes := some (3, 4), forkRes := 0, execOk := false, fdopenRes := some 7 }

/-- A concrete write oracle: fwrite reports 2 items written, no error. -/
def exWO : WriteOracle :=
  { fwriteRet := 2, ferror := false, errnoVal := 0 }

/-- A concrete would-block write oracle: fwrite accepts nothing, ferror is
set, errno is EAGAIN. -/
def exWOBlock : WriteOracle :=
  { fwriteRet := 0, ferror := true, errnoVal := 11 }

/- ------------------------------------------------------------------ -/
/- Shared helper lemmas about the embedded operations.                 -/
/- ------------------------------------------------------------------ -/

/-- On a descriptor whose two fcntl calls succeed, set_fd_flags ors the
requested flags into the status flags and reports the two fcntl events. -/
theorem set_fd_flags_ok (w : World) (fd : Int) (flags : Nat)
    (hg : w.getflOk fd = true) (hs : w.setflOk fd = true) :
    set_fd_flags w fd flags =
      (Except.ok { w with
          fdStatus := fun g => if g = fd then w.fdStatus fd ||| flags else w.fdStatus g },
       [Ev.fcntlGetFl fd, Ev.fcntlSetFl fd (w.fdStatus fd ||| flags)]) := by
  simp [set_fd_flags, hg, hs]

/-- On a descriptor whose two fcntl calls succeed, reset_fd_flags clears the
requested flag bits from the status flags and reports the two fcntl events. -/
theorem reset_fd_flags_ok (w : World) (fd : Int) (flag : Nat)
    (hg : w.getflOk fd = true) (hs : w.setflOk fd = true) :
    reset_fd_flags w fd flag =
      (Except.ok { w with
          fdStatus := fun g => if g = fd then Nat.ldiff (w.fdStatus fd) flag else w.fdStatus g },
       [Ev.fcntlGetFl fd, Ev.fcntlSetFl fd (Nat.ldiff (w.fdStatus fd) flag)]) := by
  simp [reset_fd_flags, hg, hs]

/-- If either fcntl call fails, reset_fd_flags throws the fcntl runtime
error. -/
theorem reset_fd_flags_err (w : World) (fd : Int) (flag : Nat)
    (h : ¬(w.getflOk fd = true ∧ w.setflOk fd = true)) :
    (reset_fd_flags w fd flag).1 = Except.error "fcntl() error" := by
  unfold reset_fd_flags
  by_cases hg : w.getflOk fd = true
  · have hs : ¬ w.setflOk fd = true := fun hs => h ⟨hg, hs⟩
    simp [hg, hs]
  · simp [hg]

/-- The waitpid retry loop on k interrupted attempts followed by a
non-EINTR failure makes exactly k + 1 attempts, all on the same pid, and
returns that failure. -/
theorem waitpid_retry_replicate_eintr (pid : Int) (k : Nat) (e : Nat)
    (he : ¬ e = EINTR) :
    waitpid_retry pid (List.replicate k (WaitRes.err EINTR) ++ [WaitRes.err e])
      = some (WaitRes.err e, List.replicate (k + 1) (Ev.waitpidEv pid)) := by
  induction k with
  | zero => simp [waitpid_retry, he]
  | succ k ih =>
    rw [List.replicate_succ, List.cons_append]
    rw [List.replicate_succ]
    simp only [waitpid_retry, if_pos rfl, ih, if_true]

/-- Whenever the waitpid retry loop resolves, its trace starts with a wait
attempt on the given pid. -/
theorem waitpid_retry_head (pid : Int) (ws : List WaitRes) (r : WaitRes)
    (t : List Ev) (h : waitpid_retry pid ws = some (r, t)) :
    ∃ t2, t = Ev.waitpidEv pid :: t2 := by
  induction ws generalizing r t with
  | nil => simp [waitpid_retry] at h
  | cons x rest ih =>
    cases x with
    | ok ps =>
      simp [waitpid_retry] at h
      exact ⟨[], h.2.symm⟩
    | err e =>
      by_cases he : e = EINTR
      · rw [show waitpid_retry pid (WaitRes.err e :: rest)
              = if e = EINTR then
                  match waitpid_retry pid rest with
                  | none => none
                  | some (r, t) => some (r, Ev.waitpidEv pid :: t)
                else some (.err e, [.waitpidEv pid]) from rfl, if_pos he] at h
        cases hrec : waitpid_retry pid rest with
        | none => rw [hrec] at h; cases h
        | some p =>
          obtain ⟨r2, t2⟩ := p
          rw [hrec] at h
          simp at h
          exact ⟨t2, h.2.symm⟩
      · rw [show waitpid_retry pid (WaitRes.err e :: rest)
              = if e = EINTR then
                  match waitpid_retry pid rest with
                  | none => none
                  | some (r, t) => some (r, Ev.waitpidEv pid :: t)
                else some (.err e, [.waitpidEv pid]) from rfl, if_neg he] at h
        simp at h
        exact ⟨[], h.2.symm⟩

/-- Whenever create_command_process returns normally, the d_cmd_pid member
holds exactly what fork returned. -/
theorem create_returned_pid (w : World) (o : SpawnOracle) (cmd : String)
    (s s2 : SinkState)
    (h : (create_command_process w o cmd s).1 = CreateResult.returned s2) :
    s2.d_cmd_pid = o.forkRes := by
  unfold create_command_process at h
  cases hp : o.pipeRes with
  | none => rw [hp] at h; simp [create_pipe] at h
  | some p =>
    obtain ⟨rfd, wfd⟩ := p
    rw [hp] at h
    simp only [create_pipe] at h
    by_cases h1 : o.forkRes = -1
    · rw [if_pos h1] at h
      simp at h
      rw [← h]
    · rw [if_neg h1] at h
      by_cases h0 : o.forkRes = 0
      · rw [if_pos h0] at h
        by_cases hex : o.execOk = true <;> simp [hex] at h
      · rw [if_neg h0] at h
        rcases hsf : (set_fd_flags (closeFdW { w with
            fdOpen := fun g => if g = rfd ∨ g = wfd then true else w.fdOpen g,
            fdStatus := fun g => if g = rfd ∨ g = wfd then 0 else w.fdStatus g } rfd)
            wfd O_NONBLOCK) with ⟨res, tr⟩
        rw [hsf] at h
        cases res with
        | error m => simp at h
        | ok w3 =>
          cases hfo : o.fdopenRes with
          | none => rw [hfo] at h; simp at h
          | some fh =>
            rw [hfo] at h
            simp at h
            rw [← h]

/- ------------------------------------------------------------------ -/
/- Claim theorems.                                                     -/
/- ------------------------------------------------------------------ -/

/-- Claim C1 (code bug demonstration): when fork returns -1 during
construction (pipe creation having succeeded), create_command_process does
NOT propagate an error: it returns normally, leaving a half-initialized
sink whose d_cmd_pid is -1 and whose d_cmd_stdin writer handle is still
unset.  This contradicts the claim that spawn failure fails the whole
construction. -/
theorem c1_fork_failure_returns_half_initialized_sink :
    (create_command_process exW exForkFailOracle "cat" exSink).1 =
      CreateResult.returned
        { d_in_item_sz := 1, d_cmd_pid := -1, d_cmd_stdin_pipe := (3, 4),
          d_cmd_stdin := none, d_unbuffered := false } := by
  rfl

/-- Claim C2: whenever work returns a value to the scheduler (i.e. the
inner write did not throw), that value is exactly the requested count
noutput_items, whatever the write oracle says fwrite actually accepted. -/
theorem c2_work_returns_requested_count (s : SinkState) (o : WriteOracle)
    (n : Nat) (h : ∃ m, (work s o n).1 = Except.ok m) :
    (work s o n).1 = Except.ok n := by
  obtain ⟨m, hm⟩ := h
  unfold work at hm ⊢
  split at hm
  next m2 t heq => simp at hm
  next a t heq => rfl

/-- Witness for claim C2 at a concrete input: requesting 9 records returns
exactly 9 even though fwrite accepted only 2. -/
theorem c2_work_returns_requested_count_witness :
    (work exSink exWO 9).1 = Except.ok 9 :=
  c2_work_returns_requested_count exSink exWO 9 ⟨9, rfl⟩

/-- Claim C3 counterexample: on the teardown failure path where the fcntl
call clearing the non-blocking flag fails, the destructor raises the fcntl
runtime error (after reporting it) instead of swallowing it, so teardown
does NOT contain every failure. -/
theorem c3_counterexample_teardown_raises :
    sink_destructor exBadW exParentSink [WaitRes.ok 0] =
      some (Except.error "fcntl() error",
            [Ev.fcntlGetFl 4, Ev.perror "fcntl()"]) := by
  rfl

/-- Claim C3 amended: a completed teardown raises if and only if the fcntl
reset of the write descriptor flags fails; on every other failure path
(in particular a failing wait) the failure is reported and swallowed and
the destructor returns normally. -/
theorem c3_teardown_raises_iff_flag_reset_fails (w : World) (s : SinkState)
    (ws : List WaitRes) (r : Except String World) (t : List Ev)
    (h : sink_destructor w s ws = some (r, t)) :
    (∃ m, r = Except.error m) ↔
      ¬(w.getflOk s.d_cmd_stdin_pipe.2 = true ∧
        w.setflOk s.d_cmd_stdin_pipe.2 = true) := by
  constructor
  · rintro ⟨m, rfl⟩
    intro ⟨hg, hs⟩
    simp only [sink_destructor] at h
    rw [reset_fd_flags_ok w s.d_cmd_stdin_pipe.2 O_NONBLOCK hg hs] at h
    rcases hwr : waitpid_retry s.d_cmd_pid ws with _ | ⟨res, tw⟩
    · rw [hwr] at h
      simp at h
    · cases res with
      | err e => rw [hwr] at h; simp at h
      | ok ps =>
        rw [hwr] at h
        by_cases hex : WIFEXITED ps = true <;> simp [hex] at h
  · intro hfail
    simp only [sink_destructor] at h
    rcases hrf : reset_fd_flags w s.d_cmd_stdin_pipe.2 O_NONBLOCK with ⟨res, tr⟩
    have herr := reset_fd_flags_err w s.d_cmd_stdin_pipe.2 O_NONBLOCK hfail
    rw [hrf] at herr
    simp only at herr
    subst herr
    rw [hrf] at h
    simp at h
    exact ⟨"fcntl() error", h.1.symm⟩

/-- Witness for the amended claim C3, at the concrete failing world: the
raised teardown error corresponds exactly to the failing fcntl reset. -/
theorem c3_teardown_raises_iff_flag_reset_fails_witness :
    (∃ m, (Except.error "fcntl() error" : Except String World) = Except.error m) ↔
      ¬(exBadW.getflOk 4 = true ∧ exBadW.setflOk 4 = true) :=
  c3_teardown_raises_iff_flag_reset_fails exBadW exParentSink [WaitRes.ok 0]
    (Except.error "fcntl() error") [Ev.fcntlGetFl 4, Ev.perror "fcntl()"] rfl

/-- Claim C4: write_process_input throws the fatal fwrite error exactly
when fwrite accepted zero items, ferror reports an error condition, and
errno is neither EAGAIN nor EWOULDBLOCK; in the would-block case (errno is
EAGAIN or EWOULDBLOCK) with zero items accepted it instead returns
normally with zero records accepted. -/
theorem c4_write_error_iff_hard_error (s : SinkState) (o : WriteOracle)
    (n : Nat) :
    ((write_process_input s o n).1 = Except.error "fwrite() error" ↔
      (o.fwriteRet = 0 ∧ o.ferror = true ∧
       o.errnoVal ≠ EAGAIN ∧ o.errnoVal ≠ EWOULDBLOCK)) ∧
    (o.fwriteRet = 0 → o.ferror = true →
      (o.errnoVal = EAGAIN ∨ o.errnoVal = EWOULDBLOCK) →
      (write_process_input s o n).1 = Except.ok 0) := by
  constructor
  · unfold write_process_input
    by_cases hc : o.fwriteRet = 0 ∧ o.ferror = true ∧
        o.errnoVal ≠ EAGAIN ∧ o.errnoVal ≠ EWOULDBLOCK
    · simp [hc]
    · rw [if_neg hc]
      by_cases hu : s.d_unbuffered = true <;> simp [hu, hc]
  · intro h0 hf hwb
    unfold write_process_input
    have hc : ¬(o.fwriteRet = 0 ∧ o.ferror = true ∧
        o.errnoVal ≠ EAGAIN ∧ o.errnoVal ≠ EWOULDBLOCK) := by
      rintro ⟨-, -, ha, hw⟩
      rcases hwb with h | h
      · exact ha h
      · exact hw h
    rw [if_neg hc]
    by_cases hu : s.d_unbuffered = true <;> simp [hu, h0]

/-- Witness for claim C4 at a concrete input: a would-block outcome (zero
items, ferror set, errno EAGAIN) returns zero records accepted without
raising. -/
theorem c4_write_error_iff_hard_error_witness :
    (write_process_input exSink exWOBlock 5).1 = Except.ok 0 :=
  (c4_write_error_iff_hard_error exSink exWOBlock 5).2 rfl rfl (Or.inl rfl)

/-- Claim C5: the destructor waits for exactly the process identifier that
fork returned at spawn (recorded in d_cmd_pid by create_command_process
whenever it returns), a wait interrupted k times by EINTR is retried so
that all k + 1 attempts target that same pid, and when the wait finally
fails with a non-EINTR error the teardown trace ends with just the
waitpid perror report: no exit-code or abnormal-termination line is
emitted. -/
theorem c5_targeted_wait_retries_eintr_reports_only_wait_failure
    (w w2 : World) (o : SpawnOracle) (cmd : String) (s s2 : SinkState)
    (k e : Nat)
    (hc : (create_command_process w o cmd s).1 = CreateResult.returned s2)
    (hg : w2.getflOk s2.d_cmd_stdin_pipe.2 = true)
    (hs : w2.setflOk s2.d_cmd_stdin_pipe.2 = true)
    (he : ¬ e = EINTR) :
    s2.d_cmd_pid = o.forkRes ∧
    ∃ w3, sink_destructor w2 s2
        (List.replicate k (WaitRes.err EINTR) ++ [WaitRes.err e])
      = some (Except.ok w3,
          [Ev.fcntlGetFl s2.d_cmd_stdin_pipe.2,
           Ev.fcntlSetFl s2.d_cmd_stdin_pipe.2
             (Nat.ldiff (w2.fdStatus s2.d_cmd_stdin_pipe.2) O_NONBLOCK),
           Ev.fcloseEv]
          ++ List.replicate (k + 1) (Ev.waitpidEv o.forkRes)
          ++ [Ev.perror "waitpid()"]) := by
  have hpid := create_returned_pid w o cmd s s2 hc
  refine ⟨hpid, ?_⟩
  simp only [sink_destructor,
    reset_fd_flags_ok w2 s2.d_cmd_stdin_pipe.2 O_NONBLOCK hg hs, hpid,
    waitpid_retry_replicate_eintr o.forkRes k e he]
  exact ⟨_, rfl⟩

/-- Witness for claim C5 at concrete inputs: a sink spawned with pid 42 is
torn down after two EINTR interruptions and a final wait failure with
errno 10; all three wait attempts target pid 42 and only the wait failure
is reported. -/
theorem c5_targeted_wait_witness :
    exParentSink.d_cmd_pid = exParentOracle.forkRes ∧
    ∃ w3, sink_destructor exW exParentSink
        (List.replicate 2 (WaitRes.err EINTR) ++ [WaitRes.err 10])
      = some (Except.ok w3,
          [Ev.fcntlGetFl 4, Ev.fcntlSetFl 4 (Nat.ldiff (exW.fdStatus 4) O_NONBLOCK),
           Ev.fcloseEv]
          ++ List.replicate 3 (Ev.waitpidEv 42) ++ [Ev.perror "waitpid()"]) :=
  c5_targeted_wait_retries_eintr_reports_only_wait_failure
    exW exW exParentOracle "cat" exSink exParentSink 2 10 rfl rfl rfl (by decide)

/-- Claim C6: on a teardown run whose flag reset succeeds and whose wait
loop resolves, the event trace starts with the two fcntl events clearing
the non-blocking flag on the write descriptor, then the fclose of the
buffered writer, then the first waitpid attempt on the child: the flag is
cleared strictly before the writer is flushed and closed, which happens
strictly before the wait. -/
theorem c6_teardown_clears_flag_then_closes_then_waits
    (w : World) (s : SinkState) (ws : List WaitRes) (r0 : WaitRes)
    (t0 : List Ev)
    (hg : w.getflOk s.d_cmd_stdin_pipe.2 = true)
    (hs : w.setflOk s.d_cmd_stdin_pipe.2 = true)
    (hw : waitpid_retry s.d_cmd_pid ws = some (r0, t0)) :
    ∃ res rest,
      sink_destructor w s ws = some (res,
        [Ev.fcntlGetFl s.d_cmd_stdin_pipe.2,
         Ev.fcntlSetFl s.d_cmd_stdin_pipe.2
           (Nat.ldiff (w.fdStatus s.d_cmd_stdin_pipe.2) O_NONBLOCK),
         Ev.fcloseEv,
         Ev.waitpidEv s.d_cmd_pid] ++ rest) := by
  obtain ⟨t2, rfl⟩ := waitpid_retry_head s.d_cmd_pid ws r0 t0 hw
  cases r0 with
  | err e =>
    simp only [sink_destructor,
      reset_fd_flags_ok w s.d_cmd_stdin_pipe.2 O_NONBLOCK hg hs, hw]
    exact ⟨_, t2 ++ [Ev.perror "waitpid()"], rfl⟩
  | ok ps =>
    simp only [sink_destructor,
      reset_fd_flags_ok w s.d_cmd_stdin_pipe.2 O_NONBLOCK hg hs, hw]
    by_cases hex : WIFEXITED ps = true
    · rw [hex]
      exact ⟨_, t2 ++ [Ev.cerr ("Process exited with code " ++ toString (WEXITSTATUS ps))],
        rfl⟩
    · rw [Bool.not_eq_true] at hex
      rw [hex]
      exact ⟨_, t2 ++ [Ev.cerr "Abnormal process termination"], rfl⟩

/-- Witness for claim C6 at concrete inputs: tearing down the concrete
sink with a child that exits with status 0 produces the reset, close,
wait prefix in that order. -/
theorem c6_teardown_order_witness :
    ∃ res rest,
      sink_destructor exW exParentSink [WaitRes.ok 0] = some (res,
        [Ev.fcntlGetFl 4, Ev.fcntlSetFl 4 (Nat.ldiff (exW.fdStatus 4) O_NONBLOCK),
         Ev.fcloseEv, Ev.waitpidEv 42] ++ rest) :=
  c6_teardown_clears_flag_then_closes_then_waits
    exW exParentSink [WaitRes.ok 0] (WaitRes.ok 0) [Ev.waitpidEv 42] rfl rfl rfl

/-- Claim C7: in the child branch (fork returned 0), when replacing the
program image with sh -c cmd fails, the child reports the execl failure
and immediately exits with EXIT_FAILURE; its trace shows it never executes
any parent-branch step (no descriptor-flag setup, no fdopen). -/
theorem c7_child_exec_failure_exits
    (w : World) (o : SpawnOracle) (cmd : String) (s : SinkState)
    (rfd wfd : Int)
    (hp : o.pipeRes = some (rfd, wfd)) (hf : o.forkRes = 0)
    (he : o.execOk = false) :
    (create_command_process w o cmd s).1 = CreateResult.childExit EXIT_FAILURE ∧
    (create_command_process w o cmd s).2.2 =
      [Ev.dup2Ev rfd STDIN_FILENO, Ev.closeFd rfd, Ev.closeFd wfd,
       Ev.execlEv cmd, Ev.perror "execl()", Ev.exitEv EXIT_FAILURE] := by
  unfold create_command_process
  rw [hp]
  simp [create_pipe, hf, he]

/-- Witness for claim C7 at concrete inputs: the concrete child oracle with
failing execl exits with EXIT_FAILURE. -/
theorem c7_child_exec_failure_exits_witness :
    (create_command_process exW exChildOracle "cat" exSink).1 =
      CreateResult.childExit EXIT_FAILURE ∧
    (create_command_process exW exChildOracle "cat" exSink).2.2 =
      [Ev.dup2Ev 3 STDIN_FILENO, Ev.closeFd 3, Ev.closeFd 4,
       Ev.execlEv "cat", Ev.perror "execl()", Ev.exitEv EXIT_FAILURE] :=
  c7_child_exec_failure_exits exW exChildOracle "cat" exSink 3 4 rfl rfl rfl

/-- Claim C8: in the parent branch (fork returned a positive pid), on the
success path the parent first closes its copy of the pipe read end, then
sets the write end non-blocking, then marks it close-on-exec, then wraps
it in the buffered writer; afterwards the read end is closed in the parent
while the write end is open with status O_NONBLOCK and descriptor flag
FD_CLOEXEC, and the returned members record the pid, the pipe and the
writer handle. -/
theorem c8_parent_branch_setup
    (w : World) (o : SpawnOracle) (cmd : String) (s : SinkState)
    (rfd wfd : Int) (fh : Nat) (pid : Int)
    (hp : o.pipeRes = some (rfd, wfd)) (hf : o.forkRes = pid) (hpid : 0 < pid)
    (hne : rfd ≠ wfd)
    (hg : w.getflOk wfd = true) (hs : w.setflOk wfd = true)
    (hfo : o.fdopenRes = some fh) :
    (create_command_process w o cmd s).1 =
      CreateResult.returned
        { s with d_cmd_pid := pid, d_cmd_stdin_pipe := (rfd, wfd),
                 d_cmd_stdin := some fh } ∧
    (create_command_process w o cmd s).2.1.fdOpen rfd = false ∧
    (create_command_process w o cmd s).2.1.fdOpen wfd = true ∧
    (create_command_process w o cmd s).2.1.fdStatus wfd = O_NONBLOCK ∧
    (create_command_process w o cmd s).2.1.fdFdflags wfd = FD_CLOEXEC ∧
    (create_command_process w o cmd s).2.2 =
      [Ev.closeFd rfd, Ev.fcntlGetFl wfd, Ev.fcntlSetFl wfd O_NONBLOCK,
       Ev.fcntlSetFd wfd FD_CLOEXEC, Ev.fdopenEv wfd] := by
  have h1 : ¬ o.forkRes = -1 := by rw [hf]; omega
  have h0 : ¬ o.forkRes = 0 := by rw [hf]; omega
  have hwne : ¬ wfd = rfd := fun hh => hne hh.symm
  unfold create_command_process
  rw [hp]
  simp only [create_pipe, if_neg h1, if_neg h0]
  rw [set_fd_flags_ok (closeFdW { w with
        fdStatus := fun g => if g = rfd ∨ g = wfd then 0 else w.fdStatus g,
        fdOpen := fun g => if g = rfd ∨ g = wfd then true else w.fdOpen g } rfd)
      wfd O_NONBLOCK hg hs]
  rw [hfo, hf]
  simp [closeFdW, hwne, hne]

/-- Witness for claim C8 at concrete inputs: the parent oracle with pipe
(3, 4), pid 42 and FILE handle 7 yields the fully initialised sink and the
expected descriptor states and event order. -/
theorem c8_parent_branch_setup_witness :
    (create_command_process exW exParentOracle "cat" exSink).1 =
      CreateResult.returned
        { exSink with d_cmd_pid := 42, d_cmd_stdin_pipe := (3, 4),
                      d_cmd_stdin := some 7 } ∧
    (create_command_process exW exParentOracle "cat" exSink).2.1.fdOpen 3 = false ∧
    (create_command_process exW exParentOracle "cat" exSink).2.1.fdOpen 4 = true ∧
    (create_command_process exW exParentOracle "cat" exSink).2.1.fdStatus 4 = O_NONBLOCK ∧
    (create_command_process exW exParentOracle "cat" exSink).2.1.fdFdflags 4 = FD_CLOEXEC ∧
    (create_command_process exW exParentOracle "cat" exSink).2.2 =
      [Ev.closeFd 3, Ev.fcntlGetFl 4, Ev.fcntlSetFl 4 O_NONBLOCK,
       Ev.fcntlSetFd 4 FD_CLOEXEC, Ev.fdopenEv 4] :=
  c8_parent_branch_setup exW exParentOracle "cat" exSink 3 4 7 42
    rfl rfl (by decide) (by decide) rfl rfl rfl

/-- Claim C9: set_unbuffered followed by unbuffered returns the stored
flag; set_unbuffered changes no member other than d_unbuffered; and the
flag's only behavioural effect on the write operation is to gate the
fflush step: the write result is unchanged by the flag, and the flush
event occurs exactly when the flag is set and the write did not throw. -/
theorem c9_set_unbuffered_roundtrip_and_frame
    (s : SinkState) (b : Bool) (o : WriteOracle) (n : Nat) :
    unbuffered (set_unbuffered s b) = b ∧
    (set_unbuffered s b).d_in_item_sz = s.d_in_item_sz ∧
    (set_unbuffered s b).d_cmd_pid = s.d_cmd_pid ∧
    (set_unbuffered s b).d_cmd_stdin_pipe = s.d_cmd_stdin_pipe ∧
    (set_unbuffered s b).d_cmd_stdin = s.d_cmd_stdin ∧
    (write_process_input (set_unbuffered s b) o n).1 =
      (write_process_input s o n).1 ∧
    (Ev.fflushEv ∈ (write_process_input (set_unbuffered s b) o n).2 ↔
      (b = true ∧
       (write_process_input (set_unbuffered s b) o n).1 ≠
         Except.error "fwrite() error")) := by
  refine ⟨rfl, rfl, rfl, rfl, rfl, ?_, ?_⟩
  · unfold write_process_input
    by_cases hc : o.fwriteRet = 0 ∧ o.ferror = true ∧
        o.errnoVal ≠ EAGAIN ∧ o.errnoVal ≠ EWOULDBLOCK
    · simp [hc]
    · cases b <;> by_cases hu : s.d_unbuffered = true <;>
        simp [set_unbuffered, hu, hc]
  · unfold write_process_input
    by_cases hc : o.fwriteRet = 0 ∧ o.ferror = true ∧
        o.errnoVal ≠ EAGAIN ∧ o.errnoVal ≠ EWOULDBLOCK
    · simp [hc]
    · cases b <;> simp [set_unbuffered, hc]

/-- Witness for claim C9 at a concrete input: the flag round-trips and the
flush event is present exactly when the flag is set on a successful
write. -/
theorem c9_set_unbuffered_witness :
    unbuffered (set_unbuffered exSink true) = true ∧
    Ev.fflushEv ∈ (write_process_input (set_unbuffered exSink true) exWO 3).2 :=
  ⟨(c9_set_unbuffered_roundtrip_and_frame exSink true exWO 3).1,
   ((c9_set_unbuffered_roundtrip_and_frame exSink true exWO 3).2.2.2.2.2.2).2
     ⟨rfl, by simp [write_process_input, set_unbuffered, exSink, exWO]⟩⟩

/-- Claim C10: on a descriptor whose fcntl calls succeed, set_fd_flags
leaves the status flags at F ||| flags and reset_fd_flags at F with the
flag bits removed (F and-not flag); both leave every other descriptor,
the descriptor-flag table and the open table untouched, and every status
bit outside the named flag bits keeps its previous value. -/
theorem c10_fd_flag_helpers_touch_only_named_bits
    (w : World) (fd : Int) (flags flag : Nat)
    (hg : w.getflOk fd = true) (hs : w.setflOk fd = true) :
    (∃ w1, (set_fd_flags w fd flags).1 = Except.ok w1 ∧
        w1.fdStatus fd = w.fdStatus fd ||| flags ∧
        (∀ g, g ≠ fd → w1.fdStatus g = w.fdStatus g) ∧
        w1.fdFdflags = w.fdFdflags ∧ w1.fdOpen = w.fdOpen ∧
        (∀ i, flags.testBit i = true → (w1.fdStatus fd).testBit i = true) ∧
        (∀ i, flags.testBit i = false →
          (w1.fdStatus fd).testBit i = (w.fdStatus fd).testBit i)) ∧
    (∃ w2, (reset_fd_flags w fd flag).1 = Except.ok w2 ∧
        w2.fdStatus fd = Nat.ldiff (w.fdStatus fd) flag ∧
        (∀ g, g ≠ fd → w2.fdStatus g = w.fdStatus g) ∧
        w2.fdFdflags = w.fdFdflags ∧ w2.fdOpen = w.fdOpen ∧
        (∀ i, flag.testBit i = true → (w2.fdStatus fd).testBit i = false) ∧
        (∀ i, flag.testBit i = false →
          (w2.fdStatus fd).testBit i = (w.fdStatus fd).testBit i)) := by
  constructor
  · refine ⟨{ w with
        fdStatus := fun g => if g = fd then w.fdStatus fd ||| flags else w.fdStatus g },
      ?_, ?_, ?_, rfl, rfl, ?_, ?_⟩
    · rw [set_fd_flags_ok w fd flags hg hs]
    · simp
    · intro g hgfd
      simp [hgfd]
    · intro i hi
      simp [Nat.testBit_lor, hi]
    · intro i hi
      simp [Nat.testBit_lor, hi]
  · refine ⟨{ w with
        fdStatus := fun g => if g = fd then Nat.ldiff (w.fdStatus fd) flag else w.fdStatus g },
      ?_, ?_, ?_, rfl, rfl, ?_, ?_⟩
    · rw [reset_fd_flags_ok w fd flag hg hs]
    · simp
    · intro g hgfd
      simp [hgfd]
    · intro i hi
      simp [Nat.testBit_ldiff, hi]
    · intro i hi
      simp [Nat.testBit_ldiff, hi]

/-- Witness for claim C10 at concrete inputs: setting then resetting
O_NONBLOCK on descriptor 5 of the concrete world succeeds, yields or-ed
respectively cleared status flags, and leaves other descriptors alone. -/
theorem c10_fd_flag_helpers_witness :
    ∃ w1, (set_fd_flags exW 5 O_NONBLOCK).1 = Except.ok w1 ∧
      w1.fdStatus 5 = exW.fdStatus 5 ||| O_NONBLOCK ∧
      (∀ g, g ≠ (5 : Int) → w1.fdStatus g = exW.fdStatus g) :=
  ((c10_fd_flag_helpers_touch_only_named_bits exW 5 O_NONBLOCK O_NONBLOCK
      rfl rfl).1).imp
    (fun _ hw => ⟨hw.1, hw.2.1, hw.2.2.1⟩)

end GrPipe
